import Mathlib

/-!
Shallow embedding of the HotelAPI Express routers
(`src/src/routes/rooms.js`, which concatenates the rooms, locations and
reservations routers) together with the data-store contract they consume
(spec §4.3). Request bodies are JSON objects, modelled as association
lists of JavaScript values; handlers are state-passing functions from a
request and a table state to a response and a new table state. A store
fault can be injected (`fault : Option String`) to model the store call
itself returning an error, which the handlers map to a 500 response.
-/

namespace HotelAPI

/-- A JavaScript value as it can appear in a parsed JSON request body.
Numbers are modelled as integers (the API's only numeric field is
`price`). -/
inductive JsValue where
  | vNull
  | vUndefined
  | vStr (s : String)
  | vNum (n : Int)
  | vBool (b : Bool)
deriving DecidableEq, Repr

/-- JavaScript truthiness: `null`, `undefined`, `false`, `0` and the
empty string are falsy; everything else is truthy. This is the test
applied by the handlers' `if (!field)` validation. -/
def truthy : JsValue → Bool
  | .vNull => false
  | .vUndefined => false
  | .vStr s => !(s == "")
  | .vNum n => !(n == 0)
  | .vBool b => b

/-- A parsed JSON request body: an object, as key/value pairs. -/
abbrev Body := List (String × JsValue)

/-- Property access / destructuring: the value at key `k`, or
`undefined` when the key is absent (JavaScript semantics of
`const \x7b k \x7d = req.body`). -/
def getField (b : Body) (k : String) : JsValue :=
  match b.find? (fun p => p.1 == k) with
  | some p => p.2
  | none => .vUndefined

/-- Whether the key `k` is present in the body at all. -/
def hasKey (b : Body) (k : String) : Bool :=
  (b.find? (fun p => p.1 == k)).isSome

/-- A stored record: the store-generated id plus the column values the
API writes. -/
structure StoreRecord where
  id : String
  fields : List (String × JsValue)
deriving DecidableEq, Repr

/-- One store table: its records, and a counter from which the store
generates fresh ids on insert. -/
structure Table where
  recs : List StoreRecord
  nextId : Nat
deriving DecidableEq, Repr

/-- The store-generated id for the `n`-th insert; an opaque non-empty
string (spec §3: identifiers are opaque strings assigned by the
store). -/
def genId (n : Nat) : String :=
  "id-" ++ toString n

/-- The three resources whose routers are in scope. -/
inductive ResName where
  | rooms
  | locations
  | reservations
deriving DecidableEq, BEq, Fintype, Repr

/-- The five route shapes each router registers. -/
inductive Route where
  | listR
  | getR
  | createR
  | updateR
  | deleteR
deriving DecidableEq, BEq, Fintype, Repr

/-- Per-resource data: the label used in error messages, the required
fields destructured from the body, and the wording of the 400
message. -/
structure Resource where
  label : String
  requiredFields : List String
  missingMsg : String
deriving DecidableEq, Repr

/-- `rooms.js`: required number, type, price, location_id; 400 message
"All fields are required". -/
def roomsRes : Resource :=
  ⟨"Room", ["number", "type", "price", "location_id"], "All fields are required"⟩

/-- `locations.js` part: required name, address; 400 message
"Name and address are required". -/
def locationsRes : Resource :=
  ⟨"Location", ["name", "address"], "Name and address are required"⟩

/-- `reservations.js` part: required user_id, room_id, check_in,
check_out; 400 message "All fields are required". -/
def reservationsRes : Resource :=
  ⟨"Reservation", ["user_id", "room_id", "check_in", "check_out"], "All fields are required"⟩

def resOf : ResName → Resource
  | .rooms => roomsRes
  | .locations => locationsRes
  | .reservations => reservationsRes

/-- Which routes carry `authMiddleware`, transcribed from the
`router.get/post/put/delete` registrations: rooms and locations gate
only their mutating routes, reservations gate every route. -/
def reqAuth : ResName → Route → Bool
  | .rooms, .listR => false
  | .rooms, .getR => false
  | .rooms, _ => true
  | .locations, .listR => false
  | .locations, .getR => false
  | .locations, _ => true
  | .reservations, _ => true

/-- Modelled from the spec: the auth middleware
(`src/middleware/auth.js` is required by every router but is not under
`src/`). Spec §4.2: a missing or malformed `Authorization: Bearer
<token>` header fails with 401 and the handler body never runs; a
present but invalid token fails with 401; a valid token lets the chain
continue. `tokenValid` abstracts the store's token validation. -/
def authGate (header : Option String) (tokenValid : String → Bool) : Bool :=
  match header with
  | none => false
  | some h => (h.take 7 == "Bearer ") && tokenValid (h.drop 7)

/-- An inbound HTTP request: the Authorization header if any, the `:id`
path parameter, and the parsed JSON body. -/
structure Request where
  auth : Option String
  pathId : String
  body : Body

/-- The JSON shapes the handlers respond with: a single record, a list
of records, an error object, or a confirmation message object. -/
inductive RespBody where
  | jRecord (r : StoreRecord)
  | jRecords (rs : List StoreRecord)
  | jError (msg : String)
  | jMessage (msg : String)
deriving DecidableEq, Repr

structure Response where
  status : Nat
  body : RespBody
deriving DecidableEq, Repr

/-- The values the Create/Update handlers send to the store: exactly the
required fields, destructured from the body
(`insert(\x7b number, type, price, location_id \x7d)`). -/
def requiredVals (r : Resource) (b : Body) : List (String × JsValue) :=
  r.requiredFields.map (fun k => (k, getField b k))

/-- The handlers' validation test `if (!f1 || !f2 || ...)`: true when
some required field is falsy (missing keys destructure to `undefined`,
which is falsy). -/
def missingRequired (r : Resource) (b : Body) : Bool :=
  r.requiredFields.any (fun k => !(truthy (getField b k)))

/-- `router.get('/')`: select all records; store error → 500 with the
store's message; otherwise 200 with the rows. -/
def listHandler (tbl : Table) (fault : Option String) : Response × Table :=
  match fault with
  | some m => (⟨500, .jError m⟩, tbl)
  | none => (⟨200, .jRecords tbl.recs⟩, tbl)

/-- `router.get('/:id')`: single-row select filtered by id. The store's
single-row fetch is modelled as returning null data (no error) on zero
rows, which the handler maps to 404 `"<Resource> not found"`; a found
row is returned with 200; a store error becomes 500. -/
def getByIdHandler (r : Resource) (pathId : String) (tbl : Table)
    (fault : Option String) : Response × Table :=
  match fault with
  | some m => (⟨500, .jError m⟩, tbl)
  | none =>
    match tbl.recs.find? (fun rec => rec.id == pathId) with
    | none => (⟨404, .jError (r.label ++ " not found")⟩, tbl)
    | some rec => (⟨200, .jRecord rec⟩, tbl)

/-- `router.post('/')` body (after the auth middleware): destructure the
required fields, 400 if any is falsy, otherwise insert exactly those
fields; the store assigns a fresh id and returns the created row, echoed
with 201. -/
def createHandler (r : Resource) (b : Body) (tbl : Table)
    (fault : Option String) : Response × Table :=
  if missingRequired r b then (⟨400, .jError r.missingMsg⟩, tbl)
  else
    match fault with
    | some m => (⟨500, .jError m⟩, tbl)
    | none =>
      let newRec : StoreRecord := ⟨genId tbl.nextId, requiredVals r b⟩
      (⟨201, .jRecord newRec⟩, ⟨tbl.recs ++ [newRec], tbl.nextId + 1⟩)

/-- `router.put('/:id')` body: same validation as Create, then an update
filtered by id; no matching row → null data → 404; otherwise the
matching record's columns are replaced by the supplied required fields
and the updated row is returned with 200. -/
def updateHandler (r : Resource) (pathId : String) (b : Body) (tbl : Table)
    (fault : Option String) : Response × Table :=
  if missingRequired r b then (⟨400, .jError r.missingMsg⟩, tbl)
  else
    match fault with
    | some m => (⟨500, .jError m⟩, tbl)
    | none =>
      match tbl.recs.find? (fun rec => rec.id == pathId) with
      | none => (⟨404, .jError (r.label ++ " not found")⟩, tbl)
      | some _ =>
        (⟨200, .jRecord ⟨pathId, requiredVals r b⟩⟩,
         ⟨tbl.recs.map (fun rec =>
            if rec.id == pathId then ⟨rec.id, requiredVals r b⟩ else rec),
          tbl.nextId⟩)

/-- `router.delete('/:id')` body: delete filtered by id; the store
removes the matching rows and returns them; zero rows deleted → 404,
otherwise 200 with a confirmation message. -/
def deleteHandler (r : Resource) (pathId : String) (tbl : Table)
    (fault : Option String) : Response × Table :=
  match fault with
  | some m => (⟨500, .jError m⟩, tbl)
  | none =>
    let deleted := tbl.recs.filter (fun rec => rec.id == pathId)
    let remaining := tbl.recs.filter (fun rec => !(rec.id == pathId))
    if deleted.length == 0 then
      (⟨404, .jError (r.label ++ " not found")⟩, ⟨remaining, tbl.nextId⟩)
    else
      (⟨200, .jMessage (r.label ++ " deleted successfully")⟩, ⟨remaining, tbl.nextId⟩)

/-- One routed request: the Express chain. If the route carries
`authMiddleware` and the gate rejects, the response is 401 and the
handler body never runs (no store call, state unchanged); otherwise the
route's handler runs against the table. -/
def handle (rn : ResName) (rt : Route) (tokenValid : String → Bool)
    (req : Request) (tbl : Table) (fault : Option String) : Response × Table :=
  if reqAuth rn rt && !(authGate req.auth tokenValid) then
    (⟨401, .jError "Unauthorized"⟩, tbl)
  else
    match rt with
    | .listR => listHandler tbl fault
    | .getR => getByIdHandler (resOf rn) req.pathId tbl fault
    | .createR => createHandler (resOf rn) req.body tbl fault
    | .updateR => updateHandler (resOf rn) req.pathId req.body tbl fault
    | .deleteR => deleteHandler (resOf rn) req.pathId tbl fault

/-! ## Helper lemmas -/

theorem genId_ne_empty (n : Nat) : genId n ≠ "" := by
  intro h
  have h2 : (genId n).data = "".data := by rw [h]
  simp [genId, String.data_append] at h2

theorem getField_map_self (f : String → JsValue) (l : List String) (k : String)
    (hk : k ∈ l) :
    getField (l.map (fun k2 => (k2, f k2))) k = f k := by
  induction l with
  | nil => cases hk
  | cons a t ih =>
    simp only [List.map_cons, getField, List.find?]
    by_cases hak : (a == k)
    · simp only [hak]
      simp only [beq_iff_eq] at hak
      simp [hak]
    · simp only [hak]
      rcases List.mem_cons.mp hk with h | h
      · subst h; simp at hak
      · exact ih h

theorem requiredVals_keys (r : Resource) (b : Body) :
    (requiredVals r b).map Prod.fst = r.requiredFields := by
  simp only [requiredVals, List.map_map]
  exact List.map_id r.requiredFields

theorem getField_requiredVals (r : Resource) (b : Body) (k : String)
    (hk : k ∈ r.requiredFields) :
    getField (requiredVals r b) k = getField b k :=
  getField_map_self (fun k2 => getField b k2) r.requiredFields k hk

theorem missingRequired_of_falsy (r : Resource) (b : Body) (k : String)
    (hk : k ∈ r.requiredFields) (hf : truthy (getField b k) = false) :
    missingRequired r b = true :=
  List.any_eq_true.mpr ⟨k, hk, by simp [hf]⟩

theorem getField_of_not_hasKey (b : Body) (k : String) (h : hasKey b k = false) :
    getField b k = .vUndefined := by
  unfold hasKey at h
  unfold getField
  cases hfind : b.find? (fun p => p.1 == k) with
  | none => rfl
  | some p => rw [hfind] at h; simp at h

theorem reqAuth_mutating (rn : ResName) (rt : Route)
    (h : rt = .createR ∨ rt = .updateR ∨ rt = .deleteR) : reqAuth rn rt = true := by
  rcases h with h | h | h <;> subst h <;> cases rn <;> rfl

theorem recs_filter_match_of_find?_none (l : List StoreRecord) (pid : String)
    (h : l.find? (fun rec => rec.id == pid) = none) :
    l.filter (fun rec => rec.id == pid) = [] := by
  rw [List.filter_eq_nil_iff]
  intro a ha
  exact List.find?_eq_none.mp h a ha

theorem recs_filter_match_after_not (l : List StoreRecord) (pid : String) :
    (l.filter (fun rec => !(rec.id == pid))).filter (fun rec => rec.id == pid) = [] := by
  rw [List.filter_eq_nil_iff]
  intro a ha
  have h2 := (List.mem_filter.mp ha).2
  simp at h2
  simp [h2]

theorem recs_filter_not_idem (l : List StoreRecord) (pid : String) :
    (l.filter (fun rec => !(rec.id == pid))).filter (fun rec => !(rec.id == pid)) =
      l.filter (fun rec => !(rec.id == pid)) := by
  rw [List.filter_eq_self]
  intro a ha
  exact (List.mem_filter.mp ha).2

theorem deleteHandler_snd (r : Resource) (pid : String) (tbl : Table) :
    (deleteHandler r pid tbl none).2 =
      ⟨tbl.recs.filter (fun rec => !(rec.id == pid)), tbl.nextId⟩ := by
  simp only [deleteHandler]
  split <;> rfl

theorem handle_delete_eq (rn : ResName) (tv : String → Bool) (req : Request)
    (tbl : Table) (fault : Option String) (hauth : authGate req.auth tv = true) :
    handle rn .deleteR tv req tbl fault = deleteHandler (resOf rn) req.pathId tbl fault := by
  unfold handle
  rw [hauth]
  simp

theorem handle_guard_false (rn : ResName) (rt : Route) (tv : String → Bool)
    (req : Request) (hauth : reqAuth rn rt = true → authGate req.auth tv = true) :
    (reqAuth rn rt && !(authGate req.auth tv)) = false := by
  cases h : reqAuth rn rt
  · simp
  · simp [hauth h]

/-! ## Claim theorems -/

/-- C1: every mutating request (Create, Update, Delete) on a gated
resource that lacks a valid bearer token gets a 401 response and the
store state is unchanged — the handler body never runs. -/
theorem auth_reject_mutating_401_store_unchanged
    (rn : ResName) (rt : Route) (tv : String → Bool) (req : Request)
    (tbl : Table) (fault : Option String)
    (hrt : rt = .createR ∨ rt = .updateR ∨ rt = .deleteR)
    (ha : authGate req.auth tv = false) :
    (handle rn rt tv req tbl fault).1.status = 401 ∧
    (handle rn rt tv req tbl fault).2 = tbl := by
  unfold handle
  rw [reqAuth_mutating rn rt hrt, ha]
  simp

theorem auth_reject_mutating_401_store_unchanged_witness :
    (handle .rooms .createR (fun _ => true) ⟨none, "r1", []⟩ ⟨[], 0⟩ none).1.status = 401 ∧
    (handle .rooms .createR (fun _ => true) ⟨none, "r1", []⟩ ⟨[], 0⟩ none).2 = ⟨[], 0⟩ :=
  auth_reject_mutating_401_store_unchanged .rooms .createR (fun _ => true)
    ⟨none, "r1", []⟩ ⟨[], 0⟩ none (Or.inl rfl) rfl

/-- C2: a Create or Update request (with a valid token) whose body lacks
some required field key gets a 400 response with the resource's
error-message body, and the store state is unchanged. -/
theorem missing_field_400_store_unchanged
    (rn : ResName) (rt : Route) (tv : String → Bool) (req : Request)
    (tbl : Table) (fault : Option String) (k : String)
    (hrt : rt = .createR ∨ rt = .updateR)
    (hauth : authGate req.auth tv = true)
    (hk : k ∈ (resOf rn).requiredFields)
    (habsent : hasKey req.body k = false) :
    (handle rn rt tv req tbl fault).1 = ⟨400, .jError (resOf rn).missingMsg⟩ ∧
    (handle rn rt tv req tbl fault).2 = tbl := by
  have hmiss : missingRequired (resOf rn) req.body = true :=
    missingRequired_of_falsy _ _ k hk
      (by rw [getField_of_not_hasKey _ _ habsent]; rfl)
  unfold handle
  rw [hauth]
  rcases hrt with h | h <;> subst h <;>
    simp [createHandler, updateHandler, hmiss]

theorem missing_field_400_store_unchanged_witness :
    (handle .rooms .createR (fun _ => true) ⟨some "Bearer t", "r1", []⟩ ⟨[], 0⟩ none).1 =
      ⟨400, .jError (resOf .rooms).missingMsg⟩ ∧
    (handle .rooms .createR (fun _ => true) ⟨some "Bearer t", "r1", []⟩ ⟨[], 0⟩ none).2 =
      ⟨[], 0⟩ :=
  missing_field_400_store_unchanged .rooms .createR (fun _ => true)
    ⟨some "Bearer t", "r1", []⟩ ⟨[], 0⟩ none "number" (Or.inl rfl) (by decide)
    (by decide) rfl

/-- C8: validation is by truthiness, not key presence — a Create or
Update request (with a valid token) in which some required field key is
present but its value is falsy (0, empty string, null) gets the same
400 response as a missing field, and the store state is unchanged. -/
theorem falsy_present_field_400_store_unchanged
    (rn : ResName) (rt : Route) (tv : String → Bool) (req : Request)
    (tbl : Table) (fault : Option String) (k : String)
    (hrt : rt = .createR ∨ rt = .updateR)
    (hauth : authGate req.auth tv = true)
    (hk : k ∈ (resOf rn).requiredFields)
    (hpresent : hasKey req.body k = true)
    (hfalsy : truthy (getField req.body k) = false) :
    (handle rn rt tv req tbl fault).1 = ⟨400, .jError (resOf rn).missingMsg⟩ ∧
    (handle rn rt tv req tbl fault).2 = tbl := by
  have hmiss : missingRequired (resOf rn) req.body = true :=
    missingRequired_of_falsy _ _ k hk hfalsy
  unfold handle
  rw [hauth]
  rcases hrt with h | h <;> subst h <;>
    simp [createHandler, updateHandler, hmiss]

theorem falsy_present_field_400_store_unchanged_witness :
    (handle .rooms .createR (fun _ => true)
        ⟨some "Bearer t", "r1",
          [("number", .vStr "101"), ("type", .vStr "single"), ("price", .vNum 0),
           ("location_id", .vStr "L1")]⟩ ⟨[], 0⟩ none).1 =
      ⟨400, .jError (resOf .rooms).missingMsg⟩ ∧
    (handle .rooms .createR (fun _ => true)
        ⟨some "Bearer t", "r1",
          [("number", .vStr "101"), ("type", .vStr "single"), ("price", .vNum 0),
           ("location_id", .vStr "L1")]⟩ ⟨[], 0⟩ none).2 = ⟨[], 0⟩ :=
  falsy_present_field_400_store_unchanged .rooms .createR (fun _ => true)
    ⟨some "Bearer t", "r1",
      [("number", .vStr "101"), ("type", .vStr "single"), ("price", .vNum 0),
       ("location_id", .vStr "L1")]⟩ ⟨[], 0⟩ none "price" (Or.inl rfl) (by decide)
    (by decide) (by decide) (by decide)

/-- C3: a Get-by-id, Update or Delete request whose path id matches no
stored record gets a 404 response whose error field is the non-empty
string "<Resource> not found". A valid token is assumed only where the
route is gated, and a validation-passing body only for Update — the only
route of the three that validates. -/
theorem absent_id_404_error_nonempty
    (rn : ResName) (rt : Route) (tv : String → Bool) (req : Request) (tbl : Table)
    (hrt : rt = .getR ∨ rt = .updateR ∨ rt = .deleteR)
    (hauth : reqAuth rn rt = true → authGate req.auth tv = true)
    (hvalid : rt = .updateR → missingRequired (resOf rn) req.body = false)
    (hid : tbl.recs.find? (fun rec => rec.id == req.pathId) = none) :
    (handle rn rt tv req tbl none).1 =
      ⟨404, .jError ((resOf rn).label ++ " not found")⟩ ∧
    (resOf rn).label ++ " not found" ≠ "" := by
  constructor
  · have hg := handle_guard_false rn rt tv req hauth
    unfold handle
    rcases hrt with h | h | h <;> subst h
    · simp [hg, getByIdHandler, hid]
    · simp [hg, updateHandler, hvalid rfl, hid]
    · simp [hg, deleteHandler, recs_filter_match_of_find?_none _ _ hid]
  · cases rn <;> decide

theorem absent_id_404_error_nonempty_witness :
    (handle .rooms .getR (fun _ => true)
        ⟨none, "does-not-exist", []⟩ ⟨[], 0⟩ none).1 =
      ⟨404, .jError ((resOf .rooms).label ++ " not found")⟩ ∧
    (resOf .rooms).label ++ " not found" ≠ "" :=
  absent_id_404_error_nonempty .rooms .getR (fun _ => true)
    ⟨none, "does-not-exist", []⟩ ⟨[], 0⟩ (Or.inl rfl) (by decide) (by decide) rfl

/-- C4: a Create request with a valid token, a validation-passing body
and a successful store insert gets a 201 response carrying a record
whose id is a non-empty generated string and whose fields echo every
required field of the body unchanged. -/
theorem valid_create_201_echoes_fields_with_id
    (rn : ResName) (tv : String → Bool) (req : Request) (tbl : Table)
    (hauth : authGate req.auth tv = true)
    (hvalid : missingRequired (resOf rn) req.body = false) :
    ∃ rec : StoreRecord,
      (handle rn .createR tv req tbl none).1 = ⟨201, .jRecord rec⟩ ∧
      rec.id ≠ "" ∧
      ∀ k ∈ (resOf rn).requiredFields, getField rec.fields k = getField req.body k := by
  refine ⟨⟨genId tbl.nextId, requiredVals (resOf rn) req.body⟩, ?_, ?_, ?_⟩
  · unfold handle
    rw [hauth]
    simp [createHandler, hvalid, requiredVals]
  · exact genId_ne_empty tbl.nextId
  · intro k hk
    exact getField_requiredVals (resOf rn) req.body k hk

theorem valid_create_201_echoes_fields_with_id_witness :
    ∃ rec : StoreRecord,
      (handle .rooms .createR (fun _ => true)
          ⟨some "Bearer t", "",
            [("number", .vStr "101"), ("type", .vStr "single"), ("price", .vNum 80),
             ("location_id", .vStr "L1")]⟩ ⟨[], 0⟩ none).1 = ⟨201, .jRecord rec⟩ ∧
      rec.id ≠ "" ∧
      ∀ k ∈ (resOf .rooms).requiredFields,
        getField rec.fields k =
          getField [("number", .vStr "101"), ("type", .vStr "single"),
            ("price", .vNum 80), ("location_id", .vStr "L1")] k :=
  valid_create_201_echoes_fields_with_id .rooms (fun _ => true)
    ⟨some "Bearer t", "",
      [("number", .vStr "101"), ("type", .vStr "single"), ("price", .vNum 80),
       ("location_id", .vStr "L1")]⟩ ⟨[], 0⟩ (by decide) (by decide)

/-- C5: Delete error behaviour is idempotent — with a valid token, a
second DELETE of the same id right after a first one responds 404 and
leaves the table exactly as the first DELETE left it. -/
theorem second_delete_404_store_unchanged
    (rn : ResName) (tv : String → Bool) (req : Request) (tbl : Table)
    (hauth : authGate req.auth tv = true) :
    (handle rn .deleteR tv req (handle rn .deleteR tv req tbl none).2 none).1.status = 404 ∧
    (handle rn .deleteR tv req (handle rn .deleteR tv req tbl none).2 none).2 =
      (handle rn .deleteR tv req tbl none).2 := by
  have h1 : (handle rn .deleteR tv req tbl none).2 =
      ⟨tbl.recs.filter (fun rec => !(rec.id == req.pathId)), tbl.nextId⟩ := by
    rw [handle_delete_eq rn tv req tbl none hauth, deleteHandler_snd]
  rw [handle_delete_eq rn tv req _ none hauth, h1]
  unfold deleteHandler
  simp [recs_filter_match_after_not, recs_filter_not_idem]

theorem second_delete_404_store_unchanged_witness :
    (handle .rooms .deleteR (fun _ => true) ⟨some "Bearer t", "id-0", []⟩
        (handle .rooms .deleteR (fun _ => true) ⟨some "Bearer t", "id-0", []⟩
          ⟨[⟨"id-0", []⟩], 1⟩ none).2 none).1.status = 404 ∧
    (handle .rooms .deleteR (fun _ => true) ⟨some "Bearer t", "id-0", []⟩
        (handle .rooms .deleteR (fun _ => true) ⟨some "Bearer t", "id-0", []⟩
          ⟨[⟨"id-0", []⟩], 1⟩ none).2 none).2 =
      (handle .rooms .deleteR (fun _ => true) ⟨some "Bearer t", "id-0", []⟩
        ⟨[⟨"id-0", []⟩], 1⟩ none).2 :=
  second_delete_404_store_unchanged .rooms (fun _ => true)
    ⟨some "Bearer t", "id-0", []⟩ ⟨[⟨"id-0", []⟩], 1⟩ (by decide)

/-- C6: when the store call itself returns an error, the response is
500 and its body is an error object carrying the store's message
verbatim; the table is unchanged. A valid token is assumed only where
the route is gated, and a validation-passing body only for Create and
Update — the routes that validate; otherwise the request ends before
the store call. -/
theorem store_error_500_message_passthrough
    (rn : ResName) (rt : Route) (tv : String → Bool) (req : Request)
    (tbl : Table) (m : String)
    (hauth : reqAuth rn rt = true → authGate req.auth tv = true)
    (hvalid : rt = .createR ∨ rt = .updateR →
      missingRequired (resOf rn) req.body = false) :
    (handle rn rt tv req tbl (some m)).1 = ⟨500, .jError m⟩ ∧
    (handle rn rt tv req tbl (some m)).2 = tbl := by
  have hg := handle_guard_false rn rt tv req hauth
  unfold handle
  cases rt
  · simp [hg, listHandler]
  · simp [hg, getByIdHandler]
  · simp [hg, createHandler, hvalid (Or.inl rfl)]
  · simp [hg, updateHandler, hvalid (Or.inr rfl)]
  · simp [hg, deleteHandler]

theorem store_error_500_message_passthrough_witness :
    (handle .rooms .listR (fun _ => true) ⟨none, "", []⟩ ⟨[], 0⟩ (some "db down")).1 =
      ⟨500, .jError "db down"⟩ ∧
    (handle .rooms .listR (fun _ => true) ⟨none, "", []⟩ ⟨[], 0⟩ (some "db down")).2 =
      ⟨[], 0⟩ :=
  store_error_500_message_passthrough .rooms .listR (fun _ => true)
    ⟨none, "", []⟩ ⟨[], 0⟩ "db down" (by decide) (by decide)

/-- C7: the routes carrying the auth gate are exactly the mutating
routes of rooms and locations plus every route of reservations; the GET
list and GET-by-id routes of rooms and locations carry no token
check. -/
theorem auth_gate_route_coverage :
    ∀ (rn : ResName) (rt : Route),
      reqAuth rn rt =
        (rn == ResName.reservations || rt == Route.createR || rt == Route.updateR ||
          rt == Route.deleteR) := by
  decide

/-- C9: GET routes (List and Get-by-id) only read — whatever the
outcome (200, 404, 500 or 401), the table after the request is exactly
the table before it. -/
theorem get_routes_leave_store_unchanged
    (rn : ResName) (rt : Route) (tv : String → Bool) (req : Request)
    (tbl : Table) (fault : Option String)
    (hrt : rt = .listR ∨ rt = .getR) :
    (handle rn rt tv req tbl fault).2 = tbl := by
  unfold handle
  split
  · rfl
  · rcases hrt with h | h <;> subst h
    · cases fault <;> rfl
    · cases fault with
      | some m => rfl
      | none =>
        simp only [getByIdHandler]
        split <;> rfl

theorem get_routes_leave_store_unchanged_witness :
    (handle .rooms .getR (fun _ => true) ⟨none, "id-0", []⟩
        ⟨[⟨"id-0", []⟩], 1⟩ none).2 = ⟨[⟨"id-0", []⟩], 1⟩ :=
  get_routes_leave_store_unchanged .rooms .getR (fun _ => true)
    ⟨none, "id-0", []⟩ ⟨[⟨"id-0", []⟩], 1⟩ none (Or.inr rfl)

/-- C10: Create and Update send the store exactly the resource's
required fields — after any Create or Update request, every record in
the table either was already there or carries precisely the required
field keys, so extra body properties are never stored. -/
theorem write_sends_only_required_fields
    (rn : ResName) (rt : Route) (tv : String → Bool) (req : Request) (tbl : Table)
    (hrt : rt = .createR ∨ rt = .updateR) :
    ∀ rec ∈ (handle rn rt tv req tbl none).2.recs,
      rec ∈ tbl.recs ∨ rec.fields.map Prod.fst = (resOf rn).requiredFields := by
  unfold handle
  split
  · exact fun rec h => Or.inl h
  · rcases hrt with h | h <;> subst h
    · simp only [createHandler]
      split
      · exact fun rec h => Or.inl h
      · intro rec h
        rcases List.mem_append.mp h with h2 | h2
        · exact Or.inl h2
        · rcases List.mem_singleton.mp h2 with rfl
          exact Or.inr (requiredVals_keys _ _)
    · simp only [updateHandler]
      split
      · exact fun rec h => Or.inl h
      · split
        · exact fun rec h => Or.inl h
        · intro rec h
          rcases List.mem_map.mp h with ⟨a, ha, hrec⟩
          by_cases hid : (a.id == req.pathId)
          · simp only [hid, if_true] at hrec
            rw [← hrec]
            exact Or.inr (requiredVals_keys _ _)
          · rw [Bool.not_eq_true] at hid
            simp only [hid, Bool.false_eq_true, if_false] at hrec
            rw [← hrec]
            exact Or.inl ha

theorem write_sends_only_required_fields_witness :
    (⟨"id-0", [("number", .vStr "101"), ("type", .vStr "single"), ("price", .vNum 80),
        ("location_id", .vStr "L1")]⟩ : StoreRecord) ∈ ([] : List StoreRecord) ∨
      (⟨"id-0", [("number", .vStr "101"), ("type", .vStr "single"), ("price", .vNum 80),
        ("location_id", .vStr "L1")]⟩ : StoreRecord).fields.map Prod.fst =
        (resOf .rooms).requiredFields :=
  write_sends_only_required_fields .rooms .createR (fun _ => true)
    ⟨some "Bearer t", "",
      [("number", .vStr "101"), ("type", .vStr "single"), ("price", .vNum 80),
       ("location_id", .vStr "L1"), ("hacked", .vStr "yes")]⟩
    ⟨[], 0⟩ (Or.inl rfl)
    ⟨"id-0", [("number", .vStr "101"), ("type", .vStr "single"), ("price", .vNum 80),
      ("location_id", .vStr "L1")]⟩ (by decide)

end HotelAPI
